import Mathlib

/-!
Verification development for the cart-to-kitchen assistant repository.

We shallowly embed the Python sources under `src/` as executable Lean
definitions and prove the specification claims about them:

* `src/recipeservice/recipe_store.py` — `RecipeStore.scale_ingredients`
* `src/recipeservice/multi_tool_agent/agent.py` — `process_recipe`
* `src/recipeservice/multi_tool_agent/recipe_generator.py` —
  `RecipeGenerator` (cache key, suggestion generation, ingredient
  reformatting, fallback recipes, background image enrichment scheduling)
* `src/ingredientmatcheragent/agent_server.py` —
  `IngredientMatcherExecutor` (`_parse_ingredients`,
  `match_ingredients_from_text`, `_search_products`, `_mock_search_products`)

Modelling conventions:
* Python `str` is Lean `String`; per-character work happens on `List Char`
  (ASCII inputs; case mapping uses `Char.toLower`).
* Python `float` is modelled as `ℚ` (all quantities exercised by the claims
  are small dyadic rationals, on which float arithmetic is exact);
  `ZeroDivisionError` is modelled by an explicit zero test at the division
  site, mirroring the `except` clause that catches it.
* Remote calls (gRPC product search, A2A agent calls, the ADK generation
  model) are oracles passed explicitly as function arguments; `hashlib.md5`
  is likewise passed as an abstract `String → String` argument.
* Regular expressions from the source are hand-compiled to explicit
  backtracking matchers that follow Python `re` semantics (ordered
  alternation, greedy quantifiers, `\b` word boundaries, `IGNORECASE`).
-/

namespace Py

/-- Python `\s` / `str.strip()` whitespace characters (ASCII range). -/
def isPySpace (c : Char) : Bool :=
  c = ' ' || c = '\t' || c = '\n' || c = '\x0d' || c = '\x0c' || c = '\x0b'

/-- Python word character for `\b` (`[A-Za-z0-9_]`; inputs are ASCII). -/
def isWordChar (c : Char) : Bool :=
  c.isAlphanum || c = '_'

/-- `str.strip()` on a character list. -/
def stripChars (l : List Char) : List Char :=
  ((l.dropWhile isPySpace).reverse.dropWhile isPySpace).reverse

/-- `str.strip()`. -/
def pyStrip (s : String) : String :=
  ⟨stripChars s.data⟩

/-- `str.lower()` on a character list (ASCII). -/
def lowerChars (l : List Char) : List Char :=
  l.map Char.toLower

/-- `str.lower()`. -/
def pyLower (s : String) : String :=
  ⟨lowerChars s.data⟩

/-- `str.split(sep)` for a single-character separator: splits at every
occurrence, keeping empty pieces. -/
def splitOn (sep : Char) : List Char → List (List Char)
  | [] => [[]]
  | c :: rest =>
    if c = sep then
      [] :: splitOn sep rest
    else
      match splitOn sep rest with
      | [] => [[c]]
      | piece :: pieces => (c :: piece) :: pieces

/-- `str.split()` with no argument: split on whitespace runs, dropping
empty pieces. -/
def splitWs : List Char → List (List Char)
  | [] => []
  | c :: rest =>
    if isPySpace c then
      splitWs rest
    else
      match splitWs rest with
      | [] => [[c]]
      | piece :: pieces =>
        match rest with
        | [] => [[c]]
        | d :: _ => if isPySpace d then [c] :: piece :: pieces
                    else (c :: piece) :: pieces

/-- `' '.join(s.split())`: collapse whitespace runs to single spaces and
drop leading/trailing whitespace. -/
def wsNormalize (l : List Char) : List Char :=
  (List.intercalate [' '] (splitWs l))

/-- `str.rstrip("s")`: drop every trailing occurrence of the character. -/
def rstripChar (ch : Char) (l : List Char) : List Char :=
  (l.reverse.dropWhile (· = ch)).reverse

/-- `str.title()` (ASCII): a letter is uppercased when the preceding
character is not a letter, lowercased otherwise. -/
def titleChars : Option Char → List Char → List Char
  | _, [] => []
  | prev, c :: rest =>
    let c' :=
      if (match prev with
          | some p => p.isAlpha
          | none => false) then c.toLower else c.toUpper
    c' :: titleChars (some c) rest

/-- `str.title()`. -/
def pyTitle (s : String) : String :=
  ⟨titleChars none s.data⟩

/-- Case-insensitive literal prefix match: returns the remainder after the
pattern when the (lowercase) pattern matches the front of `l`. -/
def ciDrop (pat : List Char) (l : List Char) : Option (List Char) :=
  match pat, l with
  | [], rest => some rest
  | _ :: _, [] => none
  | p :: ps, c :: cs => if c.toLower = p then ciDrop ps cs else none

/-- Does the first list occur at the front of the second? -/
def startsWithChars : List Char → List Char → Bool
  | [], _ => true
  | _ :: _, [] => false
  | p :: ps, c :: cs => p = c && startsWithChars ps cs

/-- Python `sub in s`: does `pat` occur contiguously inside `l`? -/
def occursIn (pat : List Char) : List Char → Bool
  | [] => startsWithChars pat []
  | c :: rest => startsWithChars pat (c :: rest) || occursIn pat rest

/-- Count the leading whitespace characters. -/
def countWs : List Char → Nat
  | [] => 0
  | c :: rest => if isPySpace c then countWs rest + 1 else 0

/-- Count the leading decimal digits. -/
def countDigits : List Char → Nat
  | [] => 0
  | c :: rest => if c.isDigit then countDigits rest + 1 else 0

/-- Multiplication on `ℚ` written with `mkRat` so that it evaluates inside
the kernel (`Rat.mul` is irreducible); `qMul_eq` identifies it with `*`. -/
def qMul (a b : ℚ) : ℚ :=
  mkRat (a.num * b.num) (a.den * b.den)

/-- Addition on `ℚ` in kernel-evaluable form; `qAdd_eq` identifies it
with `+`. -/
def qAdd (a b : ℚ) : ℚ :=
  mkRat (a.num * b.den + b.num * a.den) (a.den * b.den)

/-- Subtraction on `ℚ` in kernel-evaluable form; `qSub_eq` identifies it
with `-`. -/
def qSub (a b : ℚ) : ℚ :=
  mkRat (a.num * b.den - b.num * a.den) (a.den * b.den)

/-- Division on `ℚ` in kernel-evaluable form; `qDiv_eq` identifies it
with `/`. -/
def qDiv (a b : ℚ) : ℚ :=
  Rat.divInt (a.num * b.den) (b.num * a.den)

/-- Python `int()` applied to a float: truncation toward zero, on our `ℚ`
model of floats (`num.tdiv den` truncates toward zero). -/
def pyInt (q : ℚ) : ℤ :=
  q.num.tdiv q.den

/-- Round to the nearest integer, ties to even — the rounding used by
Python's builtin `round` and by `format(x, '.1f')`. -/
def roundHalfEven (q : ℚ) : ℤ :=
  let f := q.floor
  let d := qSub q (f : ℚ)
  if d < mkRat 1 2 then f
  else if mkRat 1 2 < d then f + 1
  else if f % 2 = 0 then f else f + 1

/-- Python `f"{q:.1f}"` for a nonnegative value (all quantities produced by
the repository are nonnegative): one digit after the decimal point,
rounding ties to even. -/
def fmtOneDecimal (q : ℚ) : String :=
  let n := roundHalfEven (qMul q 10)
  if n < 0 then
    "-" ++ toString ((-n) / 10) ++ "." ++ toString ((-n) % 10)
  else
    toString (n / 10) ++ "." ++ toString (n % 10)

/-- Parse a run of decimal digits as a natural number (the digits matched
by `\d+`). -/
def digitsToNat (l : List Char) : Nat :=
  l.foldl (fun acc c => acc * 10 + (c.toNat - 48)) 0

/-- Python `float(s)` for strings of shape `\d+` or `\d+\.\d+` (the only
shapes produced by the quantity regexes); other shapes raise `ValueError`,
modelled as `none`. -/
def pyFloat (l : List Char) : Option ℚ :=
  let d := countDigits l
  if d = 0 then none
  else
    let intPart := digitsToNat (l.take d)
    match l.drop d with
    | [] => some (intPart : ℚ)
    | '.' :: rest =>
      let d2 := countDigits rest
      if d2 = 0 then none
      else if rest.drop d2 = [] then
        some (mkRat (intPart * 10 ^ d2 + digitsToNat (rest.take d2)) (10 ^ d2))
      else none
    | _ => none

end Py

namespace RecipeStore

/-- `recipe_pb2.Ingredient`: `{name, quantity: float, unit}`. -/
structure Ingredient where
  name : String
  quantity : ℚ
  unit : String
deriving Repr, DecidableEq

/-- `recipe_pb2.Recipe` as used by `RecipeStore`. -/
structure Recipe where
  recipe_id : String
  title : String
  description : String
  default_servings : ℤ
  cook_time : String
  ingredients : List Ingredient
  instructions : List String
deriving Repr, DecidableEq

/-- Render one scaled ingredient as text, mirroring the body of the loop in
`RecipeStore.scale_ingredients` (recipe_store.py lines 88-107). -/
def renderScaled (scaled_quantity : ℚ) (unit name : String) : String :=
  if unit = "pieces" ∨ unit = "cloves" ∨ unit = "packet" then
    toString (Py.roundHalfEven scaled_quantity) ++ " " ++ unit ++ " " ++ name
  else if scaled_quantity = (Py.pyInt scaled_quantity : ℚ) then
    toString (Py.pyInt scaled_quantity) ++ " " ++ unit ++ " " ++ name
  else
    Py.fmtOneDecimal scaled_quantity ++ " " ++ unit ++ " " ++ name

/-- `RecipeStore.scale_ingredients` (recipe_store.py lines 78-108):
substitute `default_servings` for a nonpositive target, scale every
ingredient quantity by `target / default_servings`, and render each as
text. -/
def scale_ingredients (recipe : Recipe) (target_servings : ℤ) : List String :=
  let target := if target_servings ≤ 0 then recipe.default_servings else target_servings
  let scale_factor : ℚ := Py.qDiv (target : ℚ) (recipe.default_servings : ℚ)
  recipe.ingredients.map fun ing =>
    renderScaled (Py.qMul ing.quantity scale_factor) ing.unit ing.name

/-- The recipe used in the spec's scaling example: one ingredient
"1 1/2 cups Jasmine Rice" (quantity 1.5, unit cups), default 4 servings. -/
def jasmineRiceRecipe : Recipe :=
  { recipe_id := "r1"
    title := "Rice Bowl"
    description := ""
    default_servings := 4
    cook_time := "20 minutes"
    ingredients := [{ name := "Jasmine Rice", quantity := mkRat 3 2, unit := "cups" }]
    instructions := [] }

end RecipeStore

namespace Matcher

/-! Embedding of `src/ingredientmatcheragent/agent_server.py`
(`IngredientMatcherExecutor`). -/

/-- `\b` before a pattern that starts with a word character: the previous
character (if any) must not be a word character. -/
def boundaryBefore : Option Char → Bool
  | none => true
  | some p => !Py.isWordChar p

/-- `\b` after a pattern that ends with a word character: the next
character (if any) must not be a word character. -/
def boundaryAfter : List Char → Bool
  | [] => true
  | c :: _ => !Py.isWordChar c

/-- Ordered alternation of literal words, each requiring a trailing `\b`:
returns the matched length for the first alternative that fits (Python
`re` tries alternatives left to right). -/
def tryWordAlts (alts : List (List Char)) (l : List Char) : Option Nat :=
  match alts with
  | [] => none
  | w :: ws =>
    match Py.ciDrop w l with
    | some rest => if boundaryAfter rest then some w.length else tryWordAlts ws l
    | none => tryWordAlts ws l

/-- Ordered alternation of literal words with no trailing-boundary
requirement, each instead requiring at least one following whitespace
character which is consumed greedily (the shape `(?:u1|u2|...)\s+`). -/
def tryUnitThenWs (alts : List (List Char)) (l : List Char) : Option Nat :=
  match alts with
  | [] => none
  | w :: ws =>
    match Py.ciDrop w l with
    | some rest =>
      let k := Py.countWs rest
      if k = 0 then tryUnitThenWs ws l else some (w.length + k)
    | none => tryUnitThenWs ws l

/-- Words of modifier pattern (1):
`\b(?:fresh|grated|chopped|diced|sliced|minced|crushed|ground|whole)\b`. -/
def modWords1 : List (List Char) :=
  (["fresh", "grated", "chopped", "diced", "sliced", "minced", "crushed",
    "ground", "whole"] : List String).map String.data

/-- Adverbs of modifier pattern (2). -/
def modAdverbs : List (List Char) :=
  (["thinly", "finely", "coarsely", "roughly"] : List String).map String.data

/-- Verbs of modifier pattern (2). -/
def modVerbs : List (List Char) :=
  (["sliced", "chopped", "diced", "minced"] : List String).map String.data

/-- Nouns of modifier pattern (3). -/
def modCutNouns : List (List Char) :=
  (["strips", "pieces", "chunks"] : List String).map String.data

/-- Words of modifier pattern (4): `\b(?:mixed|large|small|medium)\b`. -/
def modWords4 : List (List Char) :=
  (["mixed", "large", "small", "medium"] : List String).map String.data

/-- Matcher for modifier pattern (1) at the current position. -/
def tryMod1 (prev : Option Char) (l : List Char) : Option Nat :=
  if boundaryBefore prev then tryWordAlts modWords1 l else none

/-- Matcher for modifier pattern (2)
`\b(?:thinly|finely|coarsely|roughly)\s+(?:sliced|chopped|diced|minced)\b`:
ordered alternation over adverbs, a greedy `\s+`, then the verb
alternation with trailing `\b`. -/
def tryMod2 (prev : Option Char) (l : List Char) : Option Nat :=
  if boundaryBefore prev then
    let rec goAdv : List (List Char) → Option Nat
      | [] => none
      | adv :: advs =>
        match Py.ciDrop adv l with
        | some rest =>
          let k := Py.countWs rest
          if k = 0 then goAdv advs
          else
            match tryWordAlts modVerbs (rest.drop k) with
            | some m => some (adv.length + k + m)
            | none => goAdv advs
        | none => goAdv advs
    goAdv modAdverbs
  else none

/-- Matcher for the sub-pattern `cut\s+into\s+(alts)\b`, shared by modifier
patterns (3) and (5). -/
def tryCutInto (nouns : List (List Char)) (l : List Char) : Option Nat :=
  match Py.ciDrop "cut".data l with
  | none => none
  | some r1 =>
    let k1 := Py.countWs r1
    if k1 = 0 then none
    else
      match Py.ciDrop "into".data (r1.drop k1) with
      | none => none
      | some r2 =>
        let k2 := Py.countWs r2
        if k2 = 0 then none
        else
          match tryWordAlts nouns (r2.drop k2) with
          | some m => some (3 + k1 + 4 + k2 + m)
          | none => none

/-- Matcher for modifier pattern (3)
`\b(?:cut\s+into\s+(?:strips|pieces|chunks))\b`. -/
def tryMod3 (prev : Option Char) (l : List Char) : Option Nat :=
  if boundaryBefore prev then tryCutInto modCutNouns l else none

/-- Matcher for modifier pattern (4). -/
def tryMod4 (prev : Option Char) (l : List Char) : Option Nat :=
  if boundaryBefore prev then tryWordAlts modWords4 l else none

/-- Matcher for the two-word alternatives of modifier pattern (5). -/
def tryPair (w1 w2 : List Char) (l : List Char) : Option Nat :=
  match Py.ciDrop w1 l with
  | none => none
  | some r1 =>
    let k := Py.countWs r1
    if k = 0 then none
    else
      match Py.ciDrop w2 (r1.drop k) with
      | some r2 => if boundaryAfter r2 then some (w1.length + k + w2.length) else none
      | none => none

/-- Matcher for modifier pattern (5)
`\s+(?:cut\s+into\s+strips|thinly\s+sliced|finely\s+chopped)\b`
(no leading `\b`; a greedy leading `\s+` instead). -/
def tryMod5 (_prev : Option Char) (l : List Char) : Option Nat :=
  let k := Py.countWs l
  if k = 0 then none
  else
    let rest := l.drop k
    match tryCutInto (["strips".data]) rest with
    | some m => some (k + m)
    | none =>
      match tryPair "thinly".data "sliced".data rest with
      | some m => some (k + m)
      | none =>
        match tryPair "finely".data "chopped".data rest with
        | some m => some (k + m)
        | none => none

/-- `re.sub(pattern, '', s)` driver: scan left to right over the original
string, removing each non-overlapping match and resuming just after it
(boundary checks look at the original neighbouring characters). The fuel
argument is the remaining length, consumed at least one per step. -/
def subScanF (tryM : Option Char → List Char → Option Nat) :
    Nat → Option Char → List Char → List Char
  | 0, _, l => l
  | _ + 1, _, [] => []
  | fuel + 1, prev, c :: rest =>
    match tryM prev (c :: rest) with
    | some (n + 1) => subScanF tryM fuel (some ((c :: rest).getD n c)) (rest.drop n)
    | _ => c :: subScanF tryM fuel (some c) rest

/-- Remove every match of the pattern from the string. -/
def subAll (tryM : Option Char → List Char → Option Nat) (l : List Char) : List Char :=
  subScanF tryM l.length none l

/-- `clean_ingredient_name` (agent_server.py lines 149-168): apply the five
modifier-removal substitutions in order, then collapse whitespace and
strip. -/
def clean_ingredient_name (ingredient : String) : String :=
  let l1 := subAll tryMod1 ingredient.data
  let l2 := subAll tryMod2 l1
  let l3 := subAll tryMod3 l2
  let l4 := subAll tryMod4 l3
  let l5 := subAll tryMod5 l4
  Py.pyStrip ⟨Py.wsNormalize l5⟩

/-- The unit alternation of the quantity-strip regex (agent_server.py
lines 257 and 291), expanded in Python `re`'s left-to-right,
greedy-optional-`s` order:
`cups?|tablespoons?|tbsp|teaspoons?|tsp|pounds?|pound|lbs?|lb|ounces?|ounce|oz|pieces?|piece|cloves?|clove|slices?|slice|cans?|can|packages?|package|pkg`. -/
def qtyUnitAlts : List (List Char) :=
  (["cups", "cup", "tablespoons", "tablespoon", "tbsp", "teaspoons",
    "teaspoon", "tsp", "pounds", "pound", "pound", "lbs", "lb", "lb",
    "ounces", "ounce", "ounce", "oz", "pieces", "piece", "piece",
    "cloves", "clove", "clove", "slices", "slice", "slice",
    "cans", "can", "can", "packages", "package", "package", "pkg"] :
    List String).map String.data

/-- Match `^\d+(?:\.\d+)?\s+(units)\s+` at the start of the string,
returning the length of the matched span. The decimal part, when present
(a `.` directly followed by digits), must be consumed: skipping it would
leave `\s+` facing the `.` and fail. -/
def tryQtyUnit (l : List Char) : Option Nat :=
  let d := Py.countDigits l
  if d = 0 then none
  else
    let rest0 := l.drop d
    let fracLen :=
      match rest0 with
      | '.' :: r2 => let d2 := Py.countDigits r2; if d2 = 0 then 0 else 1 + d2
      | _ => 0
    let rest1 := rest0.drop fracLen
    let k := Py.countWs rest1
    if k = 0 then none
    else
      match tryUnitThenWs qtyUnitAlts (rest1.drop k) with
      | some m => some (d + fracLen + k + m)
      | none => none

/-- The anchored `re.sub(r'^\d+(?:\.\d+)?\s+(units)\s+', '', ...)` of
`_parse_ingredients`: strip the quantity+unit span when it matches. -/
def stripQtyUnit (l : List Char) : List Char :=
  match tryQtyUnit l with
  | some n => l.drop n
  | none => l

/-- `ingredient_mapping` (agent_server.py lines 171-237), in dict insertion
order. -/
def ingredient_mapping : List (String × String) :=
  [("chicken breast", "Chicken Breast"),
   ("chicken", "Chicken Breast"),
   ("ground beef", "Ground Beef"),
   ("beef", "Ground Beef"),
   ("salmon fillets", "Salmon Fillets"),
   ("salmon", "Salmon Fillets"),
   ("garlic", "Garlic"),
   ("ginger", "Ginger"),
   ("bell pepper", "Bell Peppers"),
   ("bell peppers", "Bell Peppers"),
   ("peppers", "Bell Peppers"),
   ("yellow onion", "Yellow Onion"),
   ("onion", "Yellow Onion"),
   ("onions", "Yellow Onion"),
   ("roma tomatoes", "Roma Tomatoes"),
   ("tomatoes", "Roma Tomatoes"),
   ("tomato", "Roma Tomatoes"),
   ("lettuce", "Lettuce"),
   ("carrots", "Carrots"),
   ("carrot", "Carrots"),
   ("celery", "Celery"),
   ("cucumber", "Cucumber"),
   ("mixed greens", "Mixed Greens"),
   ("avocado", "Avocado"),
   ("cheddar cheese", "Cheddar Cheese"),
   ("cheese", "Cheddar Cheese"),
   ("whole milk", "Whole Milk"),
   ("milk", "Whole Milk"),
   ("large eggs", "Large Eggs"),
   ("eggs", "Large Eggs"),
   ("flour tortillas", "Flour Tortillas"),
   ("tortillas", "Flour Tortillas"),
   ("whole wheat bread", "Whole Wheat Bread"),
   ("bread", "Whole Wheat Bread"),
   ("jasmine rice", "Jasmine Rice"),
   ("rice", "Jasmine Rice"),
   ("egg noodles", "Egg Noodles"),
   ("noodles", "Egg Noodles"),
   ("olive oil", "Olive Oil"),
   ("sesame oil", "Sesame Oil"),
   ("vegetable oil", "Vegetable Oil"),
   ("soy sauce", "Soy Sauce"),
   ("chicken broth", "Chicken Broth"),
   ("vegetable broth", "Vegetable Broth"),
   ("broth", "Chicken Broth"),
   ("sea salt", "Sea Salt"),
   ("salt", "Sea Salt"),
   ("fresh thyme", "Fresh Thyme"),
   ("thyme", "Fresh Thyme"),
   ("fresh dill", "Fresh Dill"),
   ("dill", "Fresh Dill"),
   ("taco seasoning", "Taco Seasoning"),
   ("taco shells", "Taco Shells"),
   ("bananas", "Bananas"),
   ("banana", "Bananas"),
   ("lemon", "Lemon"),
   ("lemons", "Lemon")]

/-- The mapping step of `_parse_ingredients` (lines 263-283): exact match
on the lowered name first, then the first table key occurring as a
substring, else the cleaned phrase itself. -/
def canonicalize (clean_ingredient : String) : String :=
  let normalized := Py.pyLower clean_ingredient
  match ingredient_mapping.find? (fun p => p.1 = normalized) with
  | some p => p.2
  | none =>
    match ingredient_mapping.find? (fun p => Py.occursIn p.1.data normalized.data) with
    | some p => p.2
    | none => clean_ingredient

/-- Per-item processing of one comma-separated piece: `strip`, quantity
prefix removal, modifier cleaning, and (when nonempty) canonicalization
(`_parse_ingredients` loop body, identical in both branches). -/
def processRawItem (piece : List Char) : Option String :=
  let item := Py.stripChars piece
  let cleanQty := stripQtyUnit item
  let clean := clean_ingredient_name ⟨cleanQty⟩
  if clean = "" then none
  else some (canonicalize clean)

/-- One step of the accumulation loop of `_parse_ingredients`: skip empty
results and duplicates (first occurrence wins). -/
def collectStep (acc : List String) (piece : List Char) : List String :=
  match processRawItem piece with
  | some name => if acc.contains name then acc else acc ++ [name]
  | none => acc

/-- The accumulation loop of `_parse_ingredients`: process the pieces in
order with `collectStep`. -/
def collectIngredients (pieces : List (List Char)) : List String :=
  pieces.foldl collectStep []

/-- `\s*(.+)` after a matched marker: consume whitespace greedily, then
capture at least one character up to the end of the line, backtracking the
`\s*` when the greedy choice leaves `.+` nothing to match. -/
def captureLoop (rest : List Char) : Nat → Option (List Char)
  | 0 =>
    let line := rest.takeWhile (· ≠ '\n')
    if line = [] then none else some line
  | j + 1 =>
    let line := (rest.drop (j + 1)).takeWhile (· ≠ '\n')
    if line = [] then captureLoop rest j else some line

/-- Capture for `\s*(.+)`. -/
def captureRest (rest : List Char) : Option (List Char) :=
  captureLoop rest (Py.countWs rest)

/-- One attempt of `re.search(r'cart \(serves \d+\):\s*(.+)', text, IGNORECASE)`
at the current position. -/
def tryCartServes (l : List Char) : Option (List Char) :=
  match Py.ciDrop "cart (serves ".data l with
  | none => none
  | some r1 =>
    let d := Py.countDigits r1
    if d = 0 then none
    else
      match Py.ciDrop "):".data (r1.drop d) with
      | none => none
      | some r2 => captureRest r2

/-- `re.search` scan for the `cart (serves N):` marker. -/
def searchCartServes : List Char → Option (List Char)
  | [] => none
  | c :: rest =>
    match tryCartServes (c :: rest) with
    | some cap => some cap
    | none => searchCartServes rest

/-- One attempt of
`re.search(r'check ingredient availability:\s*(.+)', text, IGNORECASE)`
at the current position. -/
def tryCheckAvail (l : List Char) : Option (List Char) :=
  match Py.ciDrop "check ingredient availability:".data l with
  | none => none
  | some r1 => captureRest r1

/-- `re.search` scan for the `check ingredient availability:` marker. -/
def searchCheckAvail : List Char → Option (List Char)
  | [] => none
  | c :: rest =>
    match tryCheckAvail (c :: rest) with
    | some cap => some cap
    | none => searchCheckAvail rest

/-- `IngredientMatcherExecutor._parse_ingredients` (agent_server.py lines
145-315): find the ingredient-list span behind one of the two markers, or
fall back to splitting the whole text when it contains a comma; then run
the shared per-item loop (the source duplicates the identical loop body in
both branches). -/
def parse_ingredients (text : String) : List String :=
  match searchCartServes text.data with
  | some body => collectIngredients (Py.splitOn ',' body)
  | none =>
    match searchCheckAvail text.data with
    | some body => collectIngredients (Py.splitOn ',' body)
    | none =>
      if text.data.contains ',' then collectIngredients (Py.splitOn ',' text.data)
      else []

/-- A product dict as built by `_search_products` / `_mock_search_products`
(the mock entries omit `categories`; the missing key is modelled as `[]`). -/
structure Product where
  id : String
  name : String
  description : String
  price : String
  categories : List String
deriving Repr, DecidableEq

/-- A product row of the remote `ProductCatalogService.SearchProducts`
response (`price_usd` in fixed-point units/nanos form). -/
structure CatalogItem where
  id : String
  name : String
  description : String
  price_units : ℤ
  price_nanos : ℤ
  categories : List String
deriving Repr, DecidableEq

/-- Python `f"{n:02d}"`: zero-pad to two digits (nonnegative values, as
produced by the catalog's nano price field). -/
def pad2 (n : ℤ) : String :=
  if 0 ≤ n ∧ n ≤ 9 then "0" ++ toString n else toString n

/-- The product dict built from one gRPC search row (agent_server.py lines
340-348), including the price rendering
`f"${units}.{nanos//10000000:02d}"` (`//` is Python floor division, which
is `Int./` in Lean). -/
def toProduct (it : CatalogItem) : Product :=
  { id := it.id
    name := it.name
    description := it.description
    price := "$" ++ toString it.price_units ++ "." ++ pad2 (it.price_nanos / 10000000)
    categories := it.categories }

/-- Outcome of one remote `SearchProducts` call: a result list, or a raised
exception. -/
inductive SearchOutcome where
  | ok (items : List CatalogItem)
  | err
deriving Repr, DecidableEq

/-- `mock_products` (agent_server.py lines 363-436), in dict insertion
order; the mock entries carry no `categories` key. -/
def mock_products : List (String × List Product) :=
  [("Chicken Breast",
    [{ id := "CHICKEN001", name := "Chicken Breast",
       description := "Fresh boneless, skinless chicken breast",
       price := "$8.99", categories := [] }]),
   ("Ground Beef",
    [{ id := "BEEF001", name := "Ground Beef",
       description := "Fresh lean ground beef, 80/20 blend",
       price := "$6.99", categories := [] }]),
   ("Garlic",
    [{ id := "GARLIC001", name := "Garlic",
       description := "Fresh garlic bulbs",
       price := "$1.49", categories := [] }]),
   ("Bell Peppers",
    [{ id := "BELLPEPPER001", name := "Bell Peppers",
       description := "Fresh colorful bell peppers",
       price := "$2.49", categories := [] }]),
   ("Yellow Onion",
    [{ id := "ONION001", name := "Yellow Onion",
       description := "Fresh yellow onions",
       price := "$1.99", categories := [] }]),
   ("Roma Tomatoes",
    [{ id := "TOMATO001", name := "Roma Tomatoes",
       description := "Fresh Roma tomatoes",
       price := "$3.49", categories := [] }]),
   ("Salmon Fillets",
    [{ id := "SALMON001", name := "Salmon Fillets",
       description := "Fresh Atlantic salmon fillets",
       price := "$14.99", categories := [] }]),
   ("Mixed Greens",
    [{ id := "MIXEDGREENS001", name := "Mixed Greens",
       description := "Fresh mixed salad greens",
       price := "$4.49", categories := [] }]),
   ("Avocado",
    [{ id := "AVOCADO001", name := "Avocado",
       description := "Fresh ripe avocados",
       price := "$3.99", categories := [] }])]

/-- `_mock_search_products` (agent_server.py lines 360-447): direct key
match first, then the first entry related to the ingredient by
case-insensitive substring containment in either direction, else no
results. -/
def mock_search_products (ingredient : String) : List Product :=
  match mock_products.find? (fun p => p.1 = ingredient) with
  | some p => p.2
  | none =>
    match mock_products.find? (fun p =>
        Py.occursIn (Py.pyLower p.1).data (Py.pyLower ingredient).data ||
        Py.occursIn (Py.pyLower ingredient).data (Py.pyLower p.1).data) with
    | some p => p.2
    | none => []

/-- `_search_products` (agent_server.py lines 317-358): map the remote
response rows to product dicts; any raised exception is caught and the
static mock search is used as fallback. -/
def search_products (oracle : String → SearchOutcome) (ingredient : String) :
    List Product :=
  match oracle ingredient with
  | .ok items => items.map toProduct
  | .err => mock_search_products ingredient

/-- The JSON payload assembled by `match_ingredients_from_text`
(agent_server.py lines 130-136). -/
structure MatchResult where
  matched_ingredients : List String
  unmatched_ingredients : List String
  product_ids : List String
  products : List Product
  message : String
deriving Repr, DecidableEq

/-- The per-ingredient loop of `match_ingredients_from_text` (lines
120-128): accumulate matched products and unmatched names in input
order. -/
def matchLoop (oracle : String → SearchOutcome) (ingredients : List String) :
    List Product × List String :=
  ingredients.foldl
    (fun acc ingredient =>
      let products := search_products oracle ingredient
      if products.isEmpty then (acc.1, acc.2 ++ [ingredient])
      else (acc.1 ++ products, acc.2))
    ([], [])

/-- Response of `match_ingredients_from_text`: the no-ingredients error
payload or the match payload. -/
inductive MatchResponse where
  | empty (message : String)
  | result (r : MatchResult)
deriving Repr, DecidableEq

/-- `match_ingredients_from_text` (agent_server.py lines 101-143): parse
the text, report when nothing was recognized, otherwise run the match loop
and assemble the result payload. -/
def match_ingredients_from_text (oracle : String → SearchOutcome)
    (text : String) : MatchResponse :=
  let ingredients := parse_ingredients text
  if ingredients.isEmpty then .empty text
  else
    let (matched_products, unmatched_ingredients) := matchLoop oracle ingredients
    .result
      { matched_ingredients :=
          ingredients.filter (fun i => !unmatched_ingredients.contains i)
        unmatched_ingredients := unmatched_ingredients
        product_ids := matched_products.map (·.id)
        products := matched_products
        message := "Successfully matched " ++
          toString (ingredients.length - unmatched_ingredients.length) ++ " of " ++
          toString ingredients.length ++ " ingredients to " ++
          toString matched_products.length ++ " products" }

end Matcher

namespace Orchestrator

/-! Embedding of `src/recipeservice/multi_tool_agent/agent.py`
(`process_recipe`). -/

/-- `", ".join(l)`. -/
def joinComma (l : List String) : String :=
  match l with
  | [] => ""
  | x :: xs => xs.foldl (fun acc y => acc ++ ", " ++ y) x

/-- Outcome of one `call_a2a_agent` invocation: the returned dict has
`status == "success"` with a payload, or an error status (also used for a
raised exception inside the call, which `call_a2a_agent` catches and turns
into an error dict). -/
inductive A2AOutcome (α : Type) where
  | success (payload : α)
  | error (msg : String)
deriving Repr, DecidableEq

/-- The fields `process_recipe` reads from the parsed IngredientMatcher
JSON (agent.py lines 200-204), each defaulting to `[]`. -/
structure MatcherFields where
  product_ids : List String
  products : List Matcher.Product
  matched_ingredients : List String
  unmatched_ingredients : List String
deriving Repr, DecidableEq

/-- The dict returned by `process_recipe`. The success path (lines
274-282) carries all keys; the exception-handler fallback (lines 300-304)
carries only `status`, `message` and `ingredients` — absent keys are
modelled as `none`. -/
structure OrchestrationResult where
  status : String
  message : String
  ingredients : List String
  matched_products : Option (List String)
  product_details : Option (List Matcher.Product)
  matched_ingredients : Option (List String)
  unmatched_ingredients : Option (List String)
deriving Repr, DecidableEq

/-- `[i.strip() for i in recipe_text.split(",")]` (agent.py lines 157 and
290). -/
def extractIngredients (recipe_text : String) : List String :=
  (Py.splitOn ',' recipe_text.data).map (fun piece => Py.pyStrip ⟨piece⟩)

/-- `not recipe_text.lower().startswith("check ingredient availability")`
(agent.py line 240). -/
def should_add_to_cart (recipe_text : String) : Bool :=
  !(Py.startsWithChars "check ingredient availability".data
      (Py.pyLower recipe_text).data)

/-- The fallback dict built in the `except` handler of `process_recipe`
(agent.py lines 288-306): status `"success"`, a fallback-marked message,
and only the raw comma-split ingredient list. -/
def fallback_result (recipe_text : String) : OrchestrationResult :=
  let ingredients := extractIngredients recipe_text
  { status := "success"
    message := "Recipe processed successfully (fallback). Extracted " ++
      toString ingredients.length ++ " ingredients: " ++ joinComma ingredients
    ingredients := ingredients
    matched_products := none
    product_details := none
    matched_ingredients := none
    unmatched_ingredients := none }

/-- `process_recipe` (agent.py lines 140-306). The two A2A calls are
oracles: `match_call`'s success payload is the parsed matcher response
(`none` models an empty `response_text` or a JSON parse failure, whose
inner `except` leaves every field list empty); a raised exception in
either step lands in the shared `except` handler, which returns
`fallback_result`. -/
def process_recipe (recipe_text : String) (_user_id : String)
    (match_call : A2AOutcome (Option MatcherFields))
    (cart_call : A2AOutcome Unit) : OrchestrationResult :=
  let ingredients := extractIngredients recipe_text
  match match_call with
  | .error _ => fallback_result recipe_text
  | .success parsed =>
    let fields :=
      match parsed with
      | some f => f
      | none =>
        { product_ids := [], products := []
          matched_ingredients := [], unmatched_ingredients := [] }
    let matching_details :=
      fields.products.map (fun p => p.id ++ " (" ++ p.name ++ ")")
    let assemble : OrchestrationResult :=
      { status := "success"
        message :=
          if matching_details.isEmpty then
            "Recipe processed via A2A protocol. No products matched from ingredients: " ++
              joinComma ingredients
          else
            "Recipe processed via A2A protocol. Matched products: " ++
              joinComma matching_details ++ ". From ingredients: " ++
              joinComma fields.matched_ingredients
        ingredients := ingredients
        matched_products := some fields.product_ids
        product_details := some fields.products
        matched_ingredients := some fields.matched_ingredients
        unmatched_ingredients := some fields.unmatched_ingredients }
    if should_add_to_cart recipe_text then
      match cart_call with
      | .error _ => fallback_result recipe_text
      | .success _ => assemble
    else assemble

end Orchestrator

namespace Generator

/-! Embedding of `src/recipeservice/multi_tool_agent/recipe_generator.py`
(`RecipeGenerator`). -/

/-- `"sep".join(l)`. -/
def joinWith (sep : String) (l : List String) : String :=
  match l with
  | [] => ""
  | x :: xs => xs.foldl (fun acc y => acc ++ sep ++ y) x

/-- A structured ingredient dict `{name, quantity, unit}` as produced by
`_format_ingredients` and the fallback recipes. -/
structure Ingredient where
  name : String
  quantity : ℚ
  unit : String
deriving Repr, DecidableEq

/-- A recipe dict in the shape produced by `_format_recipe` and
`_get_fallback_recipes`. -/
structure Recipe where
  recipe_id : String
  title : String
  description : String
  default_servings : ℤ
  cook_time : String
  ingredients : List Ingredient
  instructions : List String
  image_data : String
  image_url : String
deriving Repr, DecidableEq

/-- `RecipeGenerator._generate_cache_key` (recipe_generator.py lines
223-228): md5 hex digest of `f"{','.join(sorted(cart_items))}:{session_id}"`.
`sorted` is Python's ascending lexicographic sort, modelled by
`insertionSort` under `≤` on `String`; `hashlib.md5(...).hexdigest()` is
the abstract argument `md5_hexdigest`. -/
def generate_cache_key (md5_hexdigest : String → String)
    (cart_items : List String) (session_id : String) : String :=
  let sorted_items := cart_items.insertionSort (fun a b => a ≤ b)
  md5_hexdigest (joinWith "," sorted_items ++ ":" ++ session_id)

/-- The unit alternation `known_units` of `_format_ingredients`
(recipe_generator.py line 424), expanded in Python `re`'s left-to-right,
greedy-optional-`s` order:
`cups?|cup|tablespoons?|tablespoon|tbsp|teaspoons?|teaspoon|tsp|pounds?|pound|lbs?|lb|ounces?|ounce|oz|pieces?|piece|cloves?|clove|slices?|slice|cans?|can|packages?|package|pkg`. -/
def knownUnitAlts : List (List Char) :=
  (["cups", "cup", "cup", "tablespoons", "tablespoon", "tablespoon", "tbsp",
    "teaspoons", "teaspoon", "teaspoon", "tsp", "pounds", "pound", "pound",
    "lbs", "lb", "lb", "ounces", "ounce", "ounce", "oz",
    "pieces", "piece", "piece", "cloves", "clove", "clove",
    "slices", "slice", "slice", "cans", "can", "can",
    "packages", "package", "package", "pkg"] : List String).map String.data

/-- Candidate lengths for the quantity group
`((?:\d+\s+)?\d+(?:\.\d+)?(?:/\d+)?)` starting at `l2` (without the
optional leading `\d+\s+`), in backtracking preference order: the optional
`\.\d+` and `/\d+` parts are greedily included first. -/
def coreQtyCandidates (l2 : List Char) : List Nat :=
  let d := Py.countDigits l2
  if d = 0 then []
  else
    let rest := l2.drop d
    let decOpts : List Nat :=
      match rest with
      | '.' :: r2 =>
        let d2 := Py.countDigits r2
        if d2 = 0 then [0] else [1 + d2, 0]
      | _ => [0]
    (decOpts.map fun dec =>
      let restD := rest.drop dec
      let fracOpts : List Nat :=
        match restD with
        | '/' :: r3 =>
          let d3 := Py.countDigits r3
          if d3 = 0 then [0] else [1 + d3, 0]
        | _ => [0]
      fracOpts.map fun frac => d + dec + frac).flatten

/-- All candidate lengths for the quantity group at the start of `l`, with
the optional leading `\d+\s+` (greedily included first). -/
def qtyCandidates (l : List Char) : List Nat :=
  let d0 := Py.countDigits l
  if d0 = 0 then []
  else
    let ws := Py.countWs (l.drop d0)
    let withLead :=
      if ws = 0 then []
      else (coreQtyCandidates (l.drop (d0 + ws))).map (d0 + ws + ·)
    withLead ++ coreQtyCandidates l

/-- `\s+(.+)$` after the unit: consume whitespace greedily (at least one
character), then the name must be nonempty and newline-free, backtracking
the `\s+` when the greedy choice fails. -/
def wsNameLoop (rU : List Char) : Nat → Option (Nat × List Char)
  | 0 => none
  | j + 1 =>
    let name := rU.drop (j + 1)
    if name.isEmpty || name.contains '\n' then wsNameLoop rU j
    else some (j + 1, name)

/-- The unit-and-name tail `(units)\s+(.+)$` of the `_format_ingredients`
pattern: ordered unit alternation, then `\s+(.+)$`; returns the matched
unit characters (original case) and the name characters. -/
def tryUnitName : List (List Char) → List Char → Option (List Char × List Char)
  | [], _ => none
  | u :: us, l2 =>
    match Py.ciDrop u l2 with
    | some rU =>
      match wsNameLoop rU (Py.countWs rU) with
      | some (_, name) => some (l2.take u.length, name)
      | none => tryUnitName us l2
    | none => tryUnitName us l2

/-- Try the quantity candidates in order against the rest of the pattern
`\s+(units)\s+(.+)$`. -/
def tryQtyList (l : List Char) :
    List Nat → Option (List Char × List Char × List Char)
  | [] => none
  | n :: ns =>
    let k := Py.countWs (l.drop n)
    if k = 0 then tryQtyList l ns
    else
      match tryUnitName knownUnitAlts (l.drop (n + k)) with
      | some (unitChars, nameChars) => some (l.take n, unitChars, nameChars)
      | none => tryQtyList l ns

/-- `re.match(r"^((?:\d+\s+)?\d+(?:\.\d+)?(?:/\d+)?)\s+(units)\s+(.+)$", ingredient, IGNORECASE)`
(recipe_generator.py line 427-428): the three captured groups, or `none`
when the pattern does not match. -/
def matchQtyUnitName (l : List Char) :
    Option (List Char × List Char × List Char) :=
  tryQtyList l (qtyCandidates l)

/-- The quantity-string parser of `_format_ingredients` (lines 438-470):
mixed numbers (`"1 1/2"`), simple fractions (`"1/2"`), plain
integer/decimal forms; `ValueError` and `ZeroDivisionError` are caught and
degrade the quantity to `1.0`, as does an empty numerator/denominator. -/
def parseQuantityChars (q : List Char) : ℚ :=
  let attempt : Option ℚ :=
    if q.contains '/' then
      match Py.splitWs q with
      | [p0, p1] => do
        let whole ← Py.pyFloat p0
        match Py.splitOn '/' p1 with
        | [n, d] => do
          let nq ← Py.pyFloat n
          let dq ← Py.pyFloat d
          if dq = 0 then none else some (Py.qAdd whole (Py.qDiv nq dq))
        | _ => some whole
      | _ =>
        match Py.splitOn '/' q with
        | [n, d] =>
          if (Py.stripChars n).isEmpty || (Py.stripChars d).isEmpty then some 1
          else do
            let nq ← Py.pyFloat n
            let dq ← Py.pyFloat d
            if dq = 0 then none else some (Py.qDiv nq dq)
        | _ => some 1
    else Py.pyFloat q
  attempt.getD 1

/-- `unit_mapping` (recipe_generator.py lines 475-502), in dict insertion
order. -/
def unit_mapping : List (String × String) :=
  [("cup", "cup"), ("cups", "cup"),
   ("tablespoon", "tablespoon"), ("tablespoons", "tablespoon"),
   ("tbsp", "tablespoon"),
   ("teaspoon", "teaspoon"), ("teaspoons", "teaspoon"), ("tsp", "teaspoon"),
   ("pound", "pound"), ("pounds", "pound"), ("lb", "pound"), ("lbs", "pound"),
   ("ounce", "ounce"), ("ounces", "ounce"), ("oz", "ounce"),
   ("piece", "piece"), ("pieces", "piece"),
   ("clove", "clove"), ("cloves", "clove"),
   ("slice", "slice"), ("slices", "slice"),
   ("can", "can"), ("cans", "can"),
   ("package", "package"), ("packages", "package"), ("pkg", "package")]

/-- `unit_mapping.get(unit_lower, unit_str)` (line 503). -/
def mapUnit (unit_str : String) : String :=
  match unit_mapping.find? (fun p => p.1 = Py.pyLower unit_str) with
  | some p => p.2
  | none => unit_str

/-- Matcher for one parenthetical `\s*\([^)]*\)` at the current position
(used by `re.sub(r"\s*\([^)]*\)", "", name)`, line 510). -/
def tryParen (_prev : Option Char) (l : List Char) : Option Nat :=
  let k := Py.countWs l
  match l.drop k with
  | '(' :: r1 =>
    let inner := r1.takeWhile (· ≠ ')')
    match r1.drop inner.length with
    | ')' :: _ => some (k + 1 + inner.length + 1)
    | _ => none
  | _ => none

/-- `re.sub(r",\s*(diced|chopped|sliced|minced|optional)$", "", name, IGNORECASE)`
(lines 513-518): one attempt at the current position, matching through to
the end of the string. -/
def trySuffixDescriptor (l : List Char) : Bool :=
  match l with
  | ',' :: r1 =>
    let k := Py.countWs r1
    let r2 := r1.drop k
    (["diced", "chopped", "sliced", "minced", "optional"] : List String).any
      (fun w => Py.ciDrop w.data r2 = some [])
  | _ => false

/-- Remove the leftmost end-anchored descriptor suffix, when present. -/
def removeTrailingDescriptor : List Char → List Char
  | [] => []
  | c :: rest =>
    if trySuffixDescriptor (c :: rest) then []
    else c :: removeTrailingDescriptor rest

/-- Embed a natural number in `ℚ` in kernel-evaluable form. -/
def ofNatQ (n : Nat) : ℚ :=
  mkRat (n : ℤ) 1

/-- The cart-alignment ladder of `_format_ingredients` (lines 531-581):
iterate over the cart items keeping the best score; an exact
case-insensitive match scores 100 and stops the loop; substring
containment scores `len-ratio * 80` resp. `* 70`; a shared significant
word (length > 3, singular/plural folded by `rstrip("s")`) scores 50. -/
def cartLadder (name_lower : String) :
    List String → Option String → ℚ → Option String × ℚ
  | [], best, score => (best, score)
  | cart_item :: rest, best, score =>
    let cart_lower := Py.pyLower cart_item
    if cart_lower = name_lower then (some cart_item, ofNatQ 100)
    else if Py.occursIn cart_lower.data name_lower.data then
      let s := Py.qMul (Py.qDiv (ofNatQ cart_lower.data.length)
        (ofNatQ name_lower.data.length)) (ofNatQ 80)
      if score < s then cartLadder name_lower rest (some cart_item) s
      else cartLadder name_lower rest best score
    else if Py.occursIn name_lower.data cart_lower.data then
      let s := Py.qMul (Py.qDiv (ofNatQ name_lower.data.length)
        (ofNatQ cart_lower.data.length)) (ofNatQ 70)
      if score < s then cartLadder name_lower rest (some cart_item) s
      else cartLadder name_lower rest best score
    else
      let hit := (Py.splitWs name_lower.data).any fun nw =>
        decide (nw.length > 3) &&
          ((Py.splitWs cart_lower.data).any fun cw =>
            nw = cw || Py.rstripChar 's' nw = Py.rstripChar 's' cw)
      if hit && decide (score < ofNatQ 50) then
        cartLadder name_lower rest (some cart_item) (ofNatQ 50)
      else cartLadder name_lower rest best score

/-- `if cart_items and name:` run the ladder, and accept the best cart
item when truthy and scoring above 40 (lines 531-581). -/
def applyCartMatch (cart_items : List String) (name : String) : String :=
  if cart_items.isEmpty || name = "" then name
  else
    match cartLadder (Py.pyLower name) cart_items none 0 with
    | (some best, score) =>
      if best ≠ "" ∧ ofNatQ 40 < score then best else name
    | (none, _) => name

/-- The per-ingredient body of `_format_ingredients` (lines 420-587):
strip, match the quantity/unit/name pattern (defaults
`quantity=1.0, unit="piece", name=ingredient` when it fails), clean the
name, align it to the cart, and title-case it. -/
def formatOne (cart_items : List String) (ingredient0 : String) : Ingredient :=
  let ingredient := Py.pyStrip ingredient0
  let l := ingredient.data
  match matchQtyUnitName l with
  | some (qtyChars, unitChars, nameChars) =>
    let quantity := parseQuantityChars (Py.stripChars qtyChars)
    let unit := mapUnit ⟨unitChars⟩
    let name1 := Py.stripChars nameChars
    let name2 := Matcher.subAll tryParen name1
    let name3 := removeTrailingDescriptor name2
    let name4 := Py.stripChars name3
    let name5 := applyCartMatch cart_items ⟨name4⟩
    { name := Py.pyTitle name5, quantity := quantity, unit := unit }
  | none =>
    let cleaned := l.dropWhile (fun c => c.isDigit || Py.isPySpace c || c = '/')
    let name :=
      if cleaned.isEmpty then ingredient
      else
        let n1 := Py.stripChars cleaned
        let n2 :=
          match Matcher.tryUnitThenWs knownUnitAlts n1 with
          | some m => n1.drop m
          | none => n1
        (⟨n2⟩ : String)
    let name5 := applyCartMatch cart_items name
    { name := Py.pyTitle name5, quantity := 1, unit := "piece" }

/-- `RecipeGenerator._format_ingredients` (recipe_generator.py lines
413-589). -/
def format_ingredients (ingredients : List String) (cart_items : List String) :
    List Ingredient :=
  ingredients.map (formatOne cart_items)

/-- The fields `_format_recipe` reads with `.get` from one JSON draft
object; `none` models an absent key and triggers the documented default. -/
structure RecipeDraft where
  name : Option String
  description : Option String
  ingredients : Option (List String)
  instructions : Option (List String)
  prep_time : Option String
deriving Repr, DecidableEq

/-- One element of the parsed generation-model JSON array: an object, or a
non-object value (on which `_format_recipe`'s attribute access raises, is
caught, and the entry is skipped with `None`). -/
inductive JsonEntry where
  | obj (d : RecipeDraft)
  | nonObj
deriving Repr, DecidableEq

/-- `RecipeGenerator._format_recipe` (recipe_generator.py lines 386-411)
on an object draft: fill the documented defaults (`servings=4`,
`cook_time="20 minutes"`, placeholder instructions) and format the
ingredient strings. -/
def format_recipe (md5_hexdigest : String → String) (cart_items : List String)
    (index : Nat) (draft : RecipeDraft) : Recipe :=
  { recipe_id := "suggested_" ++
      ⟨(md5_hexdigest (draft.name.getD ("recipe_" ++ toString index))).data.take 8⟩
    title := draft.name.getD ("Suggested Recipe " ++ toString (index + 1))
    description := draft.description.getD
      "A delicious recipe made with your cart items"
    default_servings := 4
    cook_time := draft.prep_time.getD "20 minutes"
    ingredients := format_ingredients (draft.ingredients.getD []) cart_items
    instructions := draft.instructions.getD
      ["Prepare ingredients", "Cook as desired"]
    image_data := ""
    image_url := "" }

/-- The validation loop of `_run_adk_agent` (lines 334-341): format the
first three entries of the parsed array, skipping entries on which
formatting raised. -/
def formatDrafts (md5_hexdigest : String → String) (cart_items : List String)
    (entries : List JsonEntry) : List Recipe :=
  (entries.take 3).enum.foldl
    (fun acc p =>
      match p.2 with
      | .obj d => acc ++ [format_recipe md5_hexdigest cart_items p.1 d]
      | .nonObj => acc)
    []

/-- `main_ingredients[0] if main_ingredients else alt`. -/
def headOr (l : List String) (alt : String) : String :=
  match l with
  | [] => alt
  | x :: _ => x

/-- `RecipeGenerator._get_fallback_recipes` (recipe_generator.py lines
591-668): the three static recipes built from up to the first four cart
items, with `[:3]` applied to the literal list. -/
def get_fallback_recipes (cart_items : List String) : List Recipe :=
  let main_ingredients :=
    if cart_items.length ≥ 4 then cart_items.take 4 else cart_items
  ([{ recipe_id := "fallback_skillet_medley"
      title := "One-Skillet " ++ joinWith " & " (main_ingredients.take 2) ++ " Medley"
      description := "A hearty one-pan dish that brings together your cart ingredients with simple seasonings for a satisfying meal."
      default_servings := 4
      cook_time := "25 minutes"
      image_data := ""
      image_url := ""
      ingredients := main_ingredients.map
        (fun item => { name := Py.pyTitle item, quantity := 1, unit := "piece" })
      instructions :=
        ["Prepare all ingredients: wash and chop " ++
           headOr main_ingredients "vegetables" ++ " into bite-sized pieces",
         "Heat a large skillet or pan over medium-high heat with a splash of oil",
         "Add " ++ headOr main_ingredients "main ingredient" ++
           " to the pan and cook for 3-4 minutes until starting to soften",
         "Add " ++
           (if main_ingredients.length > 1 then
              joinWith ", " ((main_ingredients.drop 1).take 2)
            else "remaining ingredients") ++ " and stir to combine",
         "Season generously with salt and pepper, then reduce heat to medium",
         "Cover and cook for 8-10 minutes, stirring occasionally, until all ingredients are tender",
         "Taste and adjust seasoning, then serve hot as a complete meal"] },
    { recipe_id := "fallback_fresh_combination"
      title := "Fresh " ++ headOr main_ingredients "Ingredient" ++ " Combination"
      description := "A light and flavorful dish that showcases your ingredients with minimal cooking for maximum freshness."
      default_servings := 3
      cook_time := "15 minutes"
      image_data := ""
      image_url := ""
      ingredients := (main_ingredients.take 3).map
        (fun item => { name := Py.pyTitle item, quantity := 1, unit := "piece" })
      instructions :=
        ["Clean and prepare " ++ headOr main_ingredients "ingredients" ++
           " by removing any unwanted parts and cutting into uniform pieces",
         "If using " ++
           (match main_ingredients with
            | _ :: second :: _ => second
            | _ => "second ingredient") ++
           ", prepare it by chopping or slicing as appropriate",
         "Arrange prepared ingredients in a large mixing bowl or serving dish",
         "Lightly season with salt and pepper to enhance natural flavors",
         "Gently toss or combine all ingredients, allowing flavors to meld",
         "Let stand for 5 minutes to allow ingredients to release their natural juices",
         "Serve immediately as a fresh, healthy dish that highlights each ingredient's unique qualities"] },
    { recipe_id := "fallback_roasted_blend"
      title := "Roasted " ++
        (if main_ingredients.length ≥ 2 then
           joinWith " & " (main_ingredients.take 2)
         else "Garden") ++ " Blend"
      description := "Oven-roasted ingredients that develop deep, caramelized flavors through high-heat cooking."
      default_servings := 4
      cook_time := "30 minutes"
      image_data := ""
      image_url := ""
      ingredients := main_ingredients.map
        (fun item => { name := Py.pyTitle item, quantity := 1, unit := "piece" })
      instructions :=
        ["Preheat your oven to 425°F (220°C) and line a large baking sheet with parchment paper",
         "Cut " ++
           (if main_ingredients.length ≥ 2 then
              joinWith ", " (main_ingredients.take 2)
            else "all ingredients") ++
           " into similar-sized pieces for even cooking",
         "Spread prepared ingredients in a single layer on the prepared baking sheet",
         "Drizzle lightly with oil and season generously with salt and pepper",
         "Toss everything together to ensure even coating of oil and seasonings",
         "Roast in preheated oven for 20-25 minutes, stirring once halfway through",
         "Continue cooking until ingredients are golden brown and tender when pierced with a fork",
         "Remove from oven and let cool for 2-3 minutes before serving hot"] }] :
    List Recipe).take 3

/-- Outcome of the ADK generation step as seen from
`generate_suggested_recipes`:
* `timeout` — `asyncio.TimeoutError`, caught inside `_generate_with_adk`
  (lines 246-249), which returns the fallback recipes and lets the normal
  flow continue (cache write and background thread);
* `failure` — no final response, undecodable JSON, or a non-array JSON
  value: the raised exception reaches the `except` of
  `generate_suggested_recipes` (lines 181-183), which returns the fallback
  recipes without caching and without starting the background thread;
* `drafts` — a parsed JSON array of entries. -/
inductive AdkOutcome where
  | timeout
  | failure
  | drafts (entries : List JsonEntry)
deriving Repr, DecidableEq

/-- One positional argument of the `threading.Thread(..., args=...)`
tuple. -/
inductive BgArg where
  | recipes (r : List Recipe)
  | strList (l : List String)
  | str (s : String)
deriving Repr, DecidableEq

/-- The positional-parameter count of
`RecipeGenerator.generate_images_for_recipes(self, recipes, cart_items, session_id)`
(recipe_generator.py line 1049), `self` excluded: a background thread
whose `args` tuple has a different length raises `TypeError` on startup
and never runs the body. -/
def generate_images_for_recipes_paramCount : Nat := 3

/-- Does the scheduled background call bind successfully? (CPython raises
`TypeError` at call time when the positional argument count does not match
the signature, so the enrichment body — including its cache update at line
1073 — never executes.) -/
def backgroundCallOk (args : List BgArg) : Bool :=
  args.length = generate_images_for_recipes_paramCount

/-- Observable outcome of one `generate_suggested_recipes` call: the
returned list, whether the ADK generation agent was run, the synchronous
cache write (if any), and the `args` tuple of the background
image-generation thread (if one was started). -/
structure GenOutcome where
  result : List Recipe
  generation_invoked : Bool
  cache_write : Option (String × List Recipe)
  background_args : Option (List BgArg)
deriving Repr, DecidableEq

/-- `RecipeGenerator.generate_suggested_recipes` (recipe_generator.py
lines 134-221; the code after the unconditional `return` at line 183 is
unreachable and not modelled). `cache` is the current contents of
`self.cache` (a `TTLCache` read through `in`/`[]`), `adk_available` is
`self.adk_available and self.recipe_agent`, and `adk` is the oracle for
the `_generate_with_adk` call. -/
def generate_suggested_recipes (md5_hexdigest : String → String)
    (cache : String → Option (List Recipe)) (adk_available : Bool)
    (adk : AdkOutcome) (cart_items : List String) (session_id : String) :
    GenOutcome :=
  if cart_items.isEmpty || cart_items.length < 2 then
    { result := get_fallback_recipes cart_items
      generation_invoked := false
      cache_write := none
      background_args := none }
  else
    let cache_key := generate_cache_key md5_hexdigest cart_items session_id
    match cache cache_key with
    | some recipes =>
      { result := recipes
        generation_invoked := false
        cache_write := none
        background_args := [BgArg.recipes recipes, BgArg.str session_id] }
    | none =>
      if adk_available then
        match adk with
        | .timeout =>
          let recipes := get_fallback_recipes cart_items
          { result := recipes
            generation_invoked := true
            cache_write := some (cache_key, recipes)
            background_args :=
              [BgArg.recipes recipes, BgArg.strList cart_items,
               BgArg.str session_id] }
        | .failure =>
          { result := get_fallback_recipes cart_items
            generation_invoked := true
            cache_write := none
            background_args := none }
        | .drafts entries =>
          let recipes := formatDrafts md5_hexdigest cart_items entries
          { result := recipes
            generation_invoked := true
            cache_write := some (cache_key, recipes)
            background_args :=
              [BgArg.recipes recipes, BgArg.strList cart_items,
               BgArg.str session_id] }
      else
        let recipes := get_fallback_recipes cart_items
        { result := recipes
          generation_invoked := false
          cache_write := some (cache_key, recipes)
          background_args :=
            [BgArg.recipes recipes, BgArg.strList cart_items,
             BgArg.str session_id] }

end Generator

/-! ## Bridge lemmas for the kernel-evaluable rational operations -/

namespace Py

theorem qMul_eq (a b : ℚ) : qMul a b = a * b := by
  rw [qMul, Rat.mul_def, Rat.normalize_eq_mkRat]

theorem qAdd_eq (a b : ℚ) : qAdd a b = a + b :=
  (Rat.add_def' a b).symm

theorem qSub_eq (a b : ℚ) : qSub a b = a - b :=
  (Rat.sub_def' a b).symm

theorem qDiv_eq (a b : ℚ) : qDiv a b = a / b := by
  rw [qDiv, Rat.divInt_eq_div]
  rcases eq_or_ne b 0 with rfl | hb
  · simp
  · have hbn : (b.num : ℚ) ≠ 0 := by
      exact_mod_cast Rat.num_ne_zero.mpr hb
    have had : ((a.den : ℚ)) ≠ 0 := by
      exact_mod_cast a.den_nz
    have hbd : ((b.den : ℚ)) ≠ 0 := by
      exact_mod_cast b.den_nz
    conv_rhs => rw [← Rat.num_div_den a, ← Rat.num_div_den b]
    push_cast
    rw [div_div_div_comm, div_div_eq_mul_div, div_mul_eq_mul_div]
    rw [div_div]

end Py

/-! ## C1 -/

/-- **C1** (counterexample): a request whose ProductMatcher A2A step fails
with a remote error; the terminal dict's status is the literal `"success"`
of the fallback handler, not `degraded`. -/
theorem C1_status_not_degraded :
    (Orchestrator.process_recipe "2 cups Roma Tomatoes, 1 lb Ground Beef"
      "test_user" (.error "connection refused") (.success ())).status =
        "success" ∧
    (Orchestrator.process_recipe "2 cups Roma Tomatoes, 1 lb Ground Beef"
      "test_user" (.error "connection refused") (.success ())).status ≠
        "degraded" := by
  decide

/-- **C1** (amended): for every request whose ProductMatcher step fails
with a remote error, `process_recipe` returns the `except`-handler
fallback dict: status `"success"` (with a fallback-marked message), only
the raw comma-split ingredient list, and no product data (no
`matched_products`, `product_details`, `matched_ingredients` or
`unmatched_ingredients` keys). -/
theorem C1_match_failure_yields_fallback (recipe_text user_id err : String)
    (cart_call : Orchestrator.A2AOutcome Unit) :
    Orchestrator.process_recipe recipe_text user_id (.error err) cart_call =
      Orchestrator.fallback_result recipe_text ∧
    (Orchestrator.fallback_result recipe_text).status = "success" ∧
    (Orchestrator.fallback_result recipe_text).matched_products = none ∧
    (Orchestrator.fallback_result recipe_text).product_details = none ∧
    (Orchestrator.fallback_result recipe_text).matched_ingredients = none ∧
    (Orchestrator.fallback_result recipe_text).unmatched_ingredients = none ∧
    (Orchestrator.fallback_result recipe_text).ingredients =
      Orchestrator.extractIngredients recipe_text :=
  ⟨rfl, rfl, rfl, rfl, rfl, rfl, rfl⟩

/-! ## C2 -/

/-- **C2** (counterexample): ingredient matching succeeded and the
cart-add step failed remotely; the terminal dict's status is the literal
`"success"` of the fallback handler, not `failed`. -/
theorem C2_status_not_failed :
    (Orchestrator.process_recipe "2 cups Roma Tomatoes, 1 lb Ground Beef"
      "test_user"
      (.success (some
        { product_ids := ["TOMATO001"]
          products := [{ id := "TOMATO001", name := "Roma Tomatoes",
                         description := "Fresh Roma tomatoes",
                         price := "$3.49", categories := [] }]
          matched_ingredients := ["Roma Tomatoes"]
          unmatched_ingredients := [] }))
      (.error "cart service down")).status = "success" ∧
    (Orchestrator.process_recipe "2 cups Roma Tomatoes, 1 lb Ground Beef"
      "test_user"
      (.success (some
        { product_ids := ["TOMATO001"]
          products := [{ id := "TOMATO001", name := "Roma Tomatoes",
                         description := "Fresh Roma tomatoes",
                         price := "$3.49", categories := [] }]
          matched_ingredients := ["Roma Tomatoes"]
          unmatched_ingredients := [] }))
      (.error "cart service down")).status ≠ "failed" := by
  decide

/-- **C2** (amended): when matching succeeds but the cart-add A2A call
fails remotely on an add-to-cart request, the shared `except` handler
produces the fallback dict: status `"success"` (not `failed`), with the
already-matched product data discarded — only the raw ingredient list
survives. -/
theorem C2_cart_failure_yields_fallback (recipe_text user_id err : String)
    (fields : Option Orchestrator.MatcherFields)
    (h : Orchestrator.should_add_to_cart recipe_text = true) :
    Orchestrator.process_recipe recipe_text user_id (.success fields)
        (.error err) =
      Orchestrator.fallback_result recipe_text ∧
    (Orchestrator.fallback_result recipe_text).status = "success" ∧
    (Orchestrator.fallback_result recipe_text).matched_products = none ∧
    (Orchestrator.fallback_result recipe_text).product_details = none := by
  refine ⟨?_, rfl, rfl, rfl⟩
  simp only [Orchestrator.process_recipe, h, if_true]

/-- **C2** (witness): the hypotheses of
`C2_cart_failure_yields_fallback` hold at a concrete add-to-cart request
with a failing cart call. -/
theorem C2_cart_failure_yields_fallback_witness :
    Orchestrator.should_add_to_cart "2 cups Roma Tomatoes, 1 lb Ground Beef" =
      true ∧
    Orchestrator.process_recipe "2 cups Roma Tomatoes, 1 lb Ground Beef" "u"
        (.success (some
          { product_ids := ["TOMATO001"], products := []
            matched_ingredients := ["Roma Tomatoes"]
            unmatched_ingredients := [] }))
        (.error "cart service down") =
      Orchestrator.fallback_result "2 cups Roma Tomatoes, 1 lb Ground Beef" :=
  ⟨by decide,
   (C2_cart_failure_yields_fallback "2 cups Roma Tomatoes, 1 lb Ground Beef"
     "u" "cart service down"
     (some { product_ids := ["TOMATO001"], products := []
             matched_ingredients := ["Roma Tomatoes"]
             unmatched_ingredients := [] })
     (by decide)).1⟩

/-! ## C8 -/

/-- **C8** (counterexample): scaling "1 1/2 cups Jasmine Rice" (quantity
1.5, cups) from 4 to 8 servings renders `"3 cups Jasmine Rice"` — the
integral result is rendered as an integer, not as `"3.0 cups Jasmine
Rice"` as the claim states. -/
theorem C8_renders_integer_not_decimal :
    RecipeStore.scale_ingredients RecipeStore.jasmineRiceRecipe 8 =
      ["3 cups Jasmine Rice"] ∧
    (["3 cups Jasmine Rice"] : List String) ≠ ["3.0 cups Jasmine Rice"] := by
  decide

/-- **C8** (amended): scaling the recipe ingredient "1 1/2 cups Jasmine
Rice" (quantity 1.5, unit cups) from a default of 4 servings to 8 servings
renders the text `"3 cups Jasmine Rice"` (the integral scaled quantity is
rendered without a decimal point). -/
theorem C8_scaled_text :
    RecipeStore.scale_ingredients RecipeStore.jasmineRiceRecipe 8 =
      ["3 cups Jasmine Rice"] := by
  decide

/-! ## C10 -/

/-- **C10**: for a recipe with positive `default_servings` and a
nonpositive target, `scale_ingredients` substitutes the default as the
target, so the scale factor is 1 and each ingredient is rendered with its
unscaled quantity; in particular the call never raises and agrees with
scaling to `default_servings` itself. -/
theorem C10_nonpositive_target_unscaled (recipe : RecipeStore.Recipe)
    (target_servings : ℤ) (hle : target_servings ≤ 0)
    (hpos : 0 < recipe.default_servings) :
    RecipeStore.scale_ingredients recipe target_servings =
      recipe.ingredients.map
        (fun ing => RecipeStore.renderScaled ing.quantity ing.unit ing.name) ∧
    RecipeStore.scale_ingredients recipe target_servings =
      RecipeStore.scale_ingredients recipe recipe.default_servings := by
  have hfac : Py.qDiv ((recipe.default_servings : ℤ) : ℚ)
      ((recipe.default_servings : ℤ) : ℚ) = 1 := by
    rw [Py.qDiv_eq]
    have : ((recipe.default_servings : ℤ) : ℚ) ≠ 0 := by
      exact_mod_cast hpos.ne'
    exact div_self this
  have hq : ∀ q : ℚ, Py.qMul q (Py.qDiv ((recipe.default_servings : ℤ) : ℚ)
      ((recipe.default_servings : ℤ) : ℚ)) = q := by
    intro q
    rw [hfac, Py.qMul_eq, mul_one]
  constructor
  · unfold RecipeStore.scale_ingredients
    rw [if_pos hle]
    refine List.map_congr_left fun ing _ => ?_
    rw [hq]
  · unfold RecipeStore.scale_ingredients
    rw [if_pos hle, if_neg (not_le.mpr hpos)]

/-- **C10** (witness): the theorem applied to the Jasmine-Rice recipe with
target 0. -/
theorem C10_nonpositive_target_unscaled_witness :
    (0 : ℤ) ≤ 0 ∧ (0 : ℤ) < RecipeStore.jasmineRiceRecipe.default_servings ∧
    RecipeStore.scale_ingredients RecipeStore.jasmineRiceRecipe 0 =
      RecipeStore.scale_ingredients RecipeStore.jasmineRiceRecipe
        RecipeStore.jasmineRiceRecipe.default_servings :=
  ⟨by decide, by decide,
   (C10_nonpositive_target_unscaled RecipeStore.jasmineRiceRecipe 0
     (by decide) (by decide)).2⟩

/-! ## C5 -/

/-- **C5**: for any two cart-item lists that are permutations of the same
multiset and any session id, `_generate_cache_key` produces the same key:
`sorted` maps both lists to the same sorted list, so the hashed content
strings coincide. -/
theorem C5_cache_key_order_independent (md5_hexdigest : String → String)
    (l1 l2 : List String) (session_id : String) (h : l1.Perm l2) :
    Generator.generate_cache_key md5_hexdigest l1 session_id =
      Generator.generate_cache_key md5_hexdigest l2 session_id := by
  unfold Generator.generate_cache_key
  have hs : l1.insertionSort (fun a b => a ≤ b) =
      l2.insertionSort (fun a b => a ≤ b) :=
    List.eq_of_perm_of_sorted
      ((List.perm_insertionSort _ l1).trans
        (h.trans (List.perm_insertionSort _ l2).symm))
      (List.sorted_insertionSort _ l1)
      (List.sorted_insertionSort _ l2)
  rw [hs]

/-- **C5** (witness): the theorem applied to a concrete transposition. -/
theorem C5_cache_key_order_independent_witness :
    (["Ground Beef", "Roma Tomatoes"] : List String).Perm
      ["Roma Tomatoes", "Ground Beef"] ∧
    Generator.generate_cache_key (fun s => s)
        ["Ground Beef", "Roma Tomatoes"] "sess" =
      Generator.generate_cache_key (fun s => s)
        ["Roma Tomatoes", "Ground Beef"] "sess" :=
  ⟨List.Perm.swap "Roma Tomatoes" "Ground Beef" [],
   C5_cache_key_order_independent (fun s => s)
     ["Ground Beef", "Roma Tomatoes"] ["Roma Tomatoes", "Ground Beef"] "sess"
     (List.Perm.swap "Roma Tomatoes" "Ground Beef" [])⟩

/-! ## C3 -/

/-- **C3**: on a cache hit, `generate_suggested_recipes` returns the
cached set synchronously, does not invoke the generation agent, writes
nothing to the cache on the synchronous path — and starts the background
image thread with the two-element `args` tuple `(recipes, session_id)`,
although `generate_images_for_recipes(self, recipes, cart_items,
session_id)` requires three positional arguments; the thread therefore
raises `TypeError` at startup and the promised enrichment and cache
replacement never happen. -/
theorem C3_cache_hit_background_arity_mismatch (md5_hexdigest : String → String)
    (cache : String → Option (List Generator.Recipe)) (adk_available : Bool)
    (adk : Generator.AdkOutcome) (cart_items : List String)
    (session_id : String) (recipes : List Generator.Recipe)
    (hlen : (cart_items.isEmpty || cart_items.length < 2) = false)
    (hhit : cache (Generator.generate_cache_key md5_hexdigest cart_items
      session_id) = some recipes) :
    Generator.generate_suggested_recipes md5_hexdigest cache adk_available adk
        cart_items session_id =
      { result := recipes
        generation_invoked := false
        cache_write := none
        background_args :=
          some [Generator.BgArg.recipes recipes,
                Generator.BgArg.str session_id] } ∧
    ([Generator.BgArg.recipes recipes,
      Generator.BgArg.str session_id].length = 2 ∧
     Generator.backgroundCallOk
       [Generator.BgArg.recipes recipes,
        Generator.BgArg.str session_id] = false) := by
  refine ⟨?_, rfl, rfl⟩
  simp only [Generator.generate_suggested_recipes, hlen, Bool.false_eq_true,
    if_false, hhit]

/-- **C3** (witness): the theorem applied to a concrete cache-hit call. -/
theorem C3_cache_hit_background_arity_mismatch_witness :
    ((["Roma Tomatoes", "Ground Beef"] : List String).isEmpty ||
      (["Roma Tomatoes", "Ground Beef"] : List String).length < 2) = false ∧
    (fun _ : String => some ([] : List Generator.Recipe))
        (Generator.generate_cache_key (fun s => s)
          ["Roma Tomatoes", "Ground Beef"] "sess") = some [] ∧
    Generator.generate_suggested_recipes (fun s => s) (fun _ => some [])
        true Generator.AdkOutcome.timeout ["Roma Tomatoes", "Ground Beef"]
        "sess" =
      { result := []
        generation_invoked := false
        cache_write := none
        background_args :=
          some [Generator.BgArg.recipes [], Generator.BgArg.str "sess"] } ∧
    Generator.backgroundCallOk
      [Generator.BgArg.recipes [], Generator.BgArg.str "sess"] = false :=
  ⟨by decide, rfl,
   (C3_cache_hit_background_arity_mismatch (fun s => s) (fun _ => some [])
     true Generator.AdkOutcome.timeout ["Roma Tomatoes", "Ground Beef"]
     "sess" [] (by decide) rfl).1,
   (C3_cache_hit_background_arity_mismatch (fun s => s) (fun _ => some [])
     true Generator.AdkOutcome.timeout ["Roma Tomatoes", "Ground Beef"]
     "sess" [] (by decide) rfl).2.2⟩

/-! ## C4 -/

/-- The static fallback set always has exactly 3 recipes. -/
theorem Generator.get_fallback_recipes_length (cart_items : List String) :
    (Generator.get_fallback_recipes cart_items).length = 3 :=
  rfl

/-- The validation loop of `_run_adk_agent` keeps at most the first three
entries. -/
theorem Generator.formatDrafts_length_le (md5_hexdigest : String → String)
    (cart_items : List String) (entries : List Generator.JsonEntry) :
    (Generator.formatDrafts md5_hexdigest cart_items entries).length ≤ 3 := by
  have hgen : ∀ (l : List (Nat × Generator.JsonEntry))
      (acc : List Generator.Recipe),
      (l.foldl
        (fun acc p =>
          match p.2 with
          | .obj d =>
            acc ++ [Generator.format_recipe md5_hexdigest cart_items p.1 d]
          | .nonObj => acc)
        acc).length ≤ acc.length + l.length := by
    intro l
    induction l with
    | nil => intro acc; simp
    | cons p rest ih =>
      intro acc
      rw [List.foldl_cons]
      refine le_trans (ih _) ?_
      have hstep :
          (match p.2 with
            | Generator.JsonEntry.obj d =>
              acc ++ [Generator.format_recipe md5_hexdigest cart_items p.1 d]
            | Generator.JsonEntry.nonObj => acc).length ≤ acc.length + 1 := by
        cases p.2 <;> simp
      simp only [List.length_cons]
      omega
  have h3 : ((entries.take 3).enum).length ≤ 3 := by
    rw [List.enum_length, List.length_take]
    exact min_le_left _ _
  have := hgen (entries.take 3).enum []
  simp only [List.length_nil, Nat.zero_add] at this
  exact le_trans this h3

/-- **C4** (counterexample): a successful generation returning the valid
empty JSON array `[]` yields zero suggestions (and caches them), violating
the claimed lower bound of 1. -/
theorem C4_zero_suggestions_possible :
    (Generator.generate_suggested_recipes (fun s => s) (fun _ => none) true
      (Generator.AdkOutcome.drafts []) ["Roma Tomatoes", "Ground Beef"]
      "sess").result = [] ∧
    ¬(1 ≤ (Generator.generate_suggested_recipes (fun s => s) (fun _ => none)
        true (Generator.AdkOutcome.drafts [])
        ["Roma Tomatoes", "Ground Beef"] "sess").result.length ∧
      (Generator.generate_suggested_recipes (fun s => s) (fun _ => none) true
        (Generator.AdkOutcome.drafts []) ["Roma Tomatoes", "Ground Beef"]
        "sess").result.length ≤ 3) := by
  decide

/-- **C4** (amended): on every call that is not a cache hit,
`generate_suggested_recipes` returns at most 3 suggestions, and exactly 3
whenever the result does not come from a parsed generation draft list
(short cart, ADK unavailable, generation timeout or failure all yield the
3-recipe static fallback); a parsed draft list may yield fewer than 3 —
including 0 for an empty array. (A cache hit returns the cached set
unchanged, whatever its size.) -/
theorem C4_suggestion_count_bounds (md5_hexdigest : String → String)
    (cache : String → Option (List Generator.Recipe)) (adk_available : Bool)
    (adk : Generator.AdkOutcome) (cart_items : List String)
    (session_id : String)
    (hmiss : cache (Generator.generate_cache_key md5_hexdigest cart_items
      session_id) = none) :
    (Generator.generate_suggested_recipes md5_hexdigest cache adk_available
      adk cart_items session_id).result.length ≤ 3 ∧
    ((∀ entries, adk ≠ Generator.AdkOutcome.drafts entries) →
      (Generator.generate_suggested_recipes md5_hexdigest cache adk_available
        adk cart_items session_id).result.length = 3) := by
  unfold Generator.generate_suggested_recipes
  cases hshort : (cart_items.isEmpty || cart_items.length < 2) with
  | true =>
    simp only [hshort, if_true]
    exact ⟨le_of_eq (Generator.get_fallback_recipes_length cart_items), fun _ =>
      Generator.get_fallback_recipes_length cart_items⟩
  | false =>
    simp only [hshort, Bool.false_eq_true, if_false, hmiss]
    cases adk_available with
    | false =>
      simp only [Bool.false_eq_true, if_false]
      exact ⟨le_of_eq (Generator.get_fallback_recipes_length cart_items),
        fun _ => Generator.get_fallback_recipes_length cart_items⟩
    | true =>
      simp only [if_true]
      cases adk with
      | timeout =>
        exact ⟨le_of_eq (Generator.get_fallback_recipes_length cart_items),
          fun _ => Generator.get_fallback_recipes_length cart_items⟩
      | failure =>
        exact ⟨le_of_eq (Generator.get_fallback_recipes_length cart_items),
          fun _ => Generator.get_fallback_recipes_length cart_items⟩
      | drafts entries =>
        refine ⟨Generator.formatDrafts_length_le md5_hexdigest cart_items
          entries, fun hne => ?_⟩
        exact absurd rfl (hne entries)

/-- **C4** (witness): the theorem applied to a cache miss with a
generation timeout: exactly three (fallback) suggestions. -/
theorem C4_suggestion_count_bounds_witness :
    ((fun _ : String => (none : Option (List Generator.Recipe)))
        (Generator.generate_cache_key (fun s => s)
          ["Roma Tomatoes", "Ground Beef"] "sess") = none) ∧
    (Generator.generate_suggested_recipes (fun s => s) (fun _ => none) true
      Generator.AdkOutcome.timeout ["Roma Tomatoes", "Ground Beef"]
      "sess").result.length = 3 :=
  ⟨rfl,
   (C4_suggestion_count_bounds (fun s => s) (fun _ => none) true
     Generator.AdkOutcome.timeout ["Roma Tomatoes", "Ground Beef"] "sess"
     rfl).2
     (fun _ h => Generator.AdkOutcome.noConfusion h)⟩

/-! ## C6 -/

/-- **C6** (counterexample): a search call that errors does not place the
ingredient in `unmatched` when the mock fallback catalog matches it: an
erroring search for "Garlic" contributes the mock product and leaves
`unmatched` empty. -/
theorem C6_error_can_still_match :
    Matcher.search_products (fun _ => Matcher.SearchOutcome.err) "Garlic" ≠
      [] ∧
    (Matcher.matchLoop (fun _ => Matcher.SearchOutcome.err) ["Garlic"]).2 =
      [] ∧
    (Matcher.matchLoop (fun _ => Matcher.SearchOutcome.err) ["Garlic"]).1 =
      [{ id := "GARLIC001", name := "Garlic",
         description := "Fresh garlic bulbs", price := "$1.49",
         categories := [] }] := by
  decide

/-- **C6** (amended): each ingredient of a batch is looked up
independently: an ingredient lands in `unmatched` exactly when its
effective search — the remote result, or the static mock catalog when the
remote call errors — returns no products; its products are appended in
input order; and no outcome aborts the processing of the remaining
names (the loop is a total fold characterized below). -/
theorem C6_per_ingredient_isolation (oracle : String → Matcher.SearchOutcome)
    (names : List String) :
    Matcher.matchLoop oracle names =
      ((names.map (Matcher.search_products oracle)).flatten,
       names.filter
         (fun n => (Matcher.search_products oracle n).isEmpty)) ∧
    (∀ n, oracle n = Matcher.SearchOutcome.err →
      Matcher.search_products oracle n = Matcher.mock_search_products n) := by
  constructor
  · have h : ∀ (l : List String) (acc : List Matcher.Product × List String),
        l.foldl
          (fun acc ingredient =>
            let products := Matcher.search_products oracle ingredient
            if products.isEmpty then (acc.1, acc.2 ++ [ingredient])
            else (acc.1 ++ products, acc.2))
          acc =
        (acc.1 ++ (l.map (Matcher.search_products oracle)).flatten,
         acc.2 ++ l.filter
           (fun n => (Matcher.search_products oracle n).isEmpty)) := by
      intro l
      induction l with
      | nil => intro acc; simp
      | cons n rest ih =>
        intro acc
        rw [List.foldl_cons]
        cases hfn : Matcher.search_products oracle n with
        | nil =>
          rw [ih]
          simp [hfn, List.filter_cons]
        | cons p ps =>
          rw [ih]
          simp [hfn, List.filter_cons]
    have := h names ([], [])
    simpa [Matcher.matchLoop] using this
  · intro n hn
    unfold Matcher.search_products
    rw [hn]

/-- **C6** (witness): the characterization applied to concrete batches,
including the erroring-call fallback at "Garlic". -/
theorem C6_per_ingredient_isolation_witness :
    Matcher.matchLoop (fun _ => Matcher.SearchOutcome.ok [])
        ["Garlic", "Dragonfruit"] =
      (((["Garlic", "Dragonfruit"] : List String).map
          (Matcher.search_products (fun _ => Matcher.SearchOutcome.ok []))).flatten,
       (["Garlic", "Dragonfruit"] : List String).filter
         (fun n => (Matcher.search_products
           (fun _ => Matcher.SearchOutcome.ok []) n).isEmpty)) ∧
    Matcher.search_products (fun _ => Matcher.SearchOutcome.err) "Garlic" =
      Matcher.mock_search_products "Garlic" :=
  ⟨(C6_per_ingredient_isolation (fun _ => Matcher.SearchOutcome.ok [])
      ["Garlic", "Dragonfruit"]).1,
   (C6_per_ingredient_isolation (fun _ => Matcher.SearchOutcome.err)
      ["Garlic", "Dragonfruit"]).2 "Garlic" rfl⟩

/-! ## C7 -/

/-- **C7** (counterexample): the extractor's quantity-strip regex
`^\d+(?:\.\d+)?\s+(unit)\s+` accepts no fraction forms: the item
`"1/2 cup sugar"` — a fraction followed by the recognized unit `cup` —
keeps its whole quantity+unit span through `_parse_ingredients`. -/
theorem C7_extractor_rejects_fractions :
    Matcher.stripQtyUnit "1/2 cup sugar".data = "1/2 cup sugar".data ∧
    Matcher.stripQtyUnit "1 1/2 cups rice".data = "1 1/2 cups rice".data ∧
    Matcher.parse_ingredients "check ingredient availability: 1/2 cup sugar" =
      ["1/2 cup sugar"] ∧
    (["1/2 cup sugar"] : List String) ≠ ["sugar"] := by
  decide

/-- **C7** (amended): the extractor's prefix stripping accepts only
integer and decimal quantities; the fraction, mixed-number, and
malformed-fraction (degrade to quantity 1.0) support lives in the
suggestion engine's ingredient reformatter `_format_ingredients`, which
parses `"1/2"`, `"1 1/2"`, decimal and integer forms and degrades the
division-by-zero fraction `"1/0"` to quantity 1.0. -/
theorem C7_quantity_forms :
    Generator.format_ingredients
        ["1/2 cup Sugar", "1 1/2 cups Jasmine Rice", "1/0 cup Sugar",
         "2 cups Roma Tomatoes", "1.5 cups Jasmine Rice"] [] =
      [{ name := "Sugar", quantity := mkRat 1 2, unit := "cup" },
       { name := "Jasmine Rice", quantity := mkRat 3 2, unit := "cup" },
       { name := "Sugar", quantity := 1, unit := "cup" },
       { name := "Roma Tomatoes", quantity := 2, unit := "cup" },
       { name := "Jasmine Rice", quantity := mkRat 3 2, unit := "cup" }] ∧
    Matcher.stripQtyUnit "2 cups roma tomatoes".data =
      "roma tomatoes".data ∧
    Matcher.stripQtyUnit "1.5 cups rice".data = "rice".data := by
  decide

/-! ## C9 -/

/-- String append acts as list append on the character data. -/
theorem strAppend_data (a b : String) : (a ++ b).data = a.data ++ b.data :=
  rfl

/-- The fold underlying `", ".join` distributes over a prefix of the
accumulator. -/
theorem joinComma_foldl_pre (rest : List String) :
    ∀ p a : String,
      rest.foldl (fun acc y => acc ++ ", " ++ y) (p ++ a) =
        p ++ rest.foldl (fun acc y => acc ++ ", " ++ y) a := by
  induction rest with
  | nil => intro p a; rfl
  | cons z zs ih =>
    intro p a
    rw [List.foldl_cons, List.foldl_cons, String.append_assoc,
      String.append_assoc, ← String.append_assoc a ", " z, ih]

/-- Unfolding `", ".join` one element at a time. -/
theorem joinComma_cons (x y : String) (rest : List String) :
    Orchestrator.joinComma (x :: y :: rest) =
      x ++ ", " ++ Orchestrator.joinComma (y :: rest) := by
  show (y :: rest).foldl (fun acc y => acc ++ ", " ++ y) x = _
  rw [List.foldl_cons]
  show rest.foldl (fun acc y => acc ++ ", " ++ y) ((x ++ ", ") ++ y) = _
  rw [joinComma_foldl_pre rest (x ++ ", ") y]
  rfl

/-- `split(',')` of a comma-free string is the single piece. -/
theorem splitOn_no_comma (l : List Char) (h : ',' ∉ l) :
    Py.splitOn ',' l = [l] := by
  induction l with
  | nil => rfl
  | cons c cs ih =>
    have hc : ¬c = ',' := fun he => h (he ▸ List.mem_cons_self c cs)
    have hcs : ',' ∉ cs := fun hm => h (List.mem_cons_of_mem c hm)
    simp only [Py.splitOn, if_neg hc, ih hcs]

/-- `split(',')` peels off a comma-free prefix before a comma. -/
theorem splitOn_append (l r : List Char) (h : ',' ∉ l) :
    Py.splitOn ',' (l ++ ',' :: r) = l :: Py.splitOn ',' r := by
  induction l with
  | nil => simp [Py.splitOn]
  | cons c cs ih =>
    have hc : ¬c = ',' := fun he => h (he ▸ List.mem_cons_self c cs)
    have hcs : ',' ∉ cs := fun hm => h (List.mem_cons_of_mem c hm)
    simp only [List.cons_append, Py.splitOn, if_neg hc, List.append_eq, ih hcs]

/-- Stripping ignores one leading space. -/
theorem stripChars_cons_space (l : List Char) :
    Py.stripChars (' ' :: l) = Py.stripChars l :=
  rfl

/-- The per-item pipeline ignores one leading space (the space a
`", ".join` leaves before each later piece). -/
theorem processRawItem_cons_space (l : List Char) :
    Matcher.processRawItem (' ' :: l) = Matcher.processRawItem l := by
  unfold Matcher.processRawItem
  rw [stripChars_cons_space]

/-- The dedup-append loop of `_parse_ingredients` reproduces a duplicate-
free list when every piece processes to the corresponding entry. -/
theorem collectIngredients_fold (pieces : List (List Char)) :
    ∀ (ys acc : List String),
      pieces.map Matcher.processRawItem = ys.map some →
      ys.Nodup → (∀ y ∈ ys, y ∉ acc) →
      pieces.foldl Matcher.collectStep acc = acc ++ ys := by
  induction pieces with
  | nil =>
    intro ys acc hmap _ _
    have : ys = [] := by
      cases ys with
      | nil => rfl
      | cons a as => simp at hmap
    subst this
    simp
  | cons p ps ih =>
    intro ys acc hmap hnd hacc
    cases ys with
    | nil => simp at hmap
    | cons y ys' =>
      simp only [List.map_cons, List.cons.injEq] at hmap
      obtain ⟨h1, h2⟩ := hmap
      rw [List.foldl_cons]
      have hmem : y ∉ acc := hacc y (List.mem_cons_self y ys')
      have hstep : Matcher.collectStep acc p = acc ++ [y] := by
        unfold Matcher.collectStep
        rw [h1]
        simp [hmem]
      have hnd' := List.nodup_cons.mp hnd
      have hacc' : ∀ y' ∈ ys', y' ∉ acc ++ [y] := by
        intro y' hy' hmem
        rcases List.mem_append.mp hmem with hl | hr
        · exact hacc y' (List.mem_cons_of_mem y hy') hl
        · exact hnd'.1 ((List.mem_singleton.mp hr) ▸ hy')
      rw [hstep, ih ys' (acc ++ [y]) h2 hnd'.2 hacc', List.append_assoc]
      rfl

/-- The accumulation loop started from the empty accumulator. -/
theorem collectIngredients_eq (pieces : List (List Char)) (ys : List String)
    (hmap : pieces.map Matcher.processRawItem = ys.map some)
    (hnd : ys.Nodup) :
    Matcher.collectIngredients pieces = ys := by
  have h := collectIngredients_fold pieces ys [] hmap hnd
    (fun y _ hm => List.not_mem_nil y hm)
  rw [List.nil_append] at h
  exact h

/-- `split(',')` of a `", ".join` recovers the entries, the later ones
with their leading space. -/
theorem joinComma_split (rest : List String) :
    ∀ x : String, (∀ z ∈ x :: rest, ',' ∉ z.data) →
      Py.splitOn ',' (Orchestrator.joinComma (x :: rest)).data =
        x.data :: rest.map (fun z => ' ' :: z.data) := by
  induction rest with
  | nil =>
    intro x h
    exact splitOn_no_comma x.data (h x (List.mem_cons_self x []))
  | cons y rest' ih =>
    intro x h
    rw [joinComma_cons]
    have hdata : (x ++ ", " ++ Orchestrator.joinComma (y :: rest')).data =
        x.data ++ ',' :: ' ' :: (Orchestrator.joinComma (y :: rest')).data := by
      rw [strAppend_data, strAppend_data, List.append_assoc]
      rfl
    rw [hdata, splitOn_append _ _ (h x (List.mem_cons_self x _))]
    have hih := ih y (fun z hz => h z (List.mem_cons_of_mem x hz))
    have hspace : Py.splitOn ','
        (' ' :: (Orchestrator.joinComma (y :: rest')).data) =
        (' ' :: y.data) :: rest'.map (fun z => ' ' :: z.data) := by
      simp only [Py.splitOn, if_neg (by decide : ¬(' ' = ',')), hih]
    rw [hspace]
    rfl

/-- Mapping the per-item pipeline over space-prefixed fixed points yields
the entries themselves. -/
theorem map_processRawItem_space (l : List String)
    (h : ∀ z ∈ l, Matcher.processRawItem z.data = some z) :
    (l.map (fun z => ' ' :: z.data)).map Matcher.processRawItem =
      l.map some := by
  induction l with
  | nil => rfl
  | cons a as ih =>
    simp only [List.map_cons, List.cons.injEq]
    exact ⟨(processRawItem_cons_space a.data).trans
        (h a (List.mem_cons_self a as)),
      ih (fun z hz => h z (List.mem_cons_of_mem a hz))⟩

/-- A `", ".join` of at least two entries contains a comma. -/
theorem joinComma_has_comma (x y : String) (rest : List String) :
    ',' ∈ (Orchestrator.joinComma (x :: y :: rest)).data := by
  rw [joinComma_cons, strAppend_data, strAppend_data]
  refine List.mem_append.mpr (Or.inl ?_)
  exact List.mem_append.mpr (Or.inr (by decide))

/-- **C9** (counterexample): `parse` is not idempotent. On input
`"garlic, garlic"` it yields the single canonical entry `["Garlic"]`;
the comma-joined output `"Garlic"` contains no comma and matches neither
list marker, so re-parsing it returns `[]`, not `["Garlic"]`. -/
theorem C9_single_entry_reparses_empty :
    Matcher.parse_ingredients "garlic, garlic" = ["Garlic"] ∧
    Orchestrator.joinComma (Matcher.parse_ingredients "garlic, garlic") =
      "Garlic" ∧
    Matcher.parse_ingredients
      (Orchestrator.joinComma (Matcher.parse_ingredients "garlic, garlic")) =
      [] ∧
    ([] : List String) ≠ ["Garlic"] := by
  decide

/-- **C9** (amended): re-parsing the comma-joined canonical output is
stable exactly on the non-degenerate cases: when the output has at least
two entries, each comma-free and itself a fixed point of the per-item
pipeline (strip, quantity-strip, modifier cleaning, canonicalization), and
the joined text triggers neither list marker, `parse` maps the joined text
back to the same ordered list. (A single-entry output re-parses to `[]`
— the comma-split fallback requires a comma — and entries that are not
pipeline fixed points, such as `Mixed Greens`, are rewritten further.) -/
theorem C9_reparse_stable (x y : String) (rest : List String)
    (hnodup : (x :: y :: rest).Nodup)
    (hnc : ∀ z ∈ x :: y :: rest, ',' ∉ z.data)
    (hfix : ∀ z ∈ x :: y :: rest,
      Matcher.processRawItem z.data = some z)
    (hs1 : Matcher.searchCartServes
      (Orchestrator.joinComma (x :: y :: rest)).data = none)
    (hs2 : Matcher.searchCheckAvail
      (Orchestrator.joinComma (x :: y :: rest)).data = none) :
    Matcher.parse_ingredients (Orchestrator.joinComma (x :: y :: rest)) =
      x :: y :: rest := by
  unfold Matcher.parse_ingredients
  rw [hs1, hs2]
  dsimp only
  rw [if_pos (List.elem_eq_true_of_mem (joinComma_has_comma x y rest))]
  rw [joinComma_split (y :: rest) x hnc]
  apply collectIngredients_eq
  · show Matcher.processRawItem x.data ::
        ((y :: rest).map (fun z => ' ' :: z.data)).map Matcher.processRawItem =
        some x :: (y :: rest).map some
    rw [hfix x (List.mem_cons_self x _),
      map_processRawItem_space (y :: rest)
        (fun z hz => hfix z (List.mem_cons_of_mem x hz))]
  · exact hnodup

/-- **C9** (witness): the amended theorem applied to the two-entry
canonical output `["Chicken Breast", "Garlic"]`. -/
theorem C9_reparse_stable_witness :
    Matcher.processRawItem "Chicken Breast".data = some "Chicken Breast" ∧
    Matcher.parse_ingredients
        (Orchestrator.joinComma ["Chicken Breast", "Garlic"]) =
      ["Chicken Breast", "Garlic"] :=
  ⟨by decide,
   C9_reparse_stable "Chicken Breast" "Garlic" [] (by decide) (by decide)
     (by decide) (by decide) (by decide)⟩
